import Mathlib

/-!
Shallow embedding of the LogPrompt API (src/main.py and src/download_models.py).

The transformers/torch inference engine is an external collaborator; it is
modelled by an `Env` record of abstract engine operations:
* `remoteFetch id` — downloading tokenizer+model for hub id `id` into the
  per-model local storage path (the three remote steps succeed or fail as one);
* `runPipeline id text` — the feature-extraction pipeline call;
* `tokenizeText id text` — `tokenizer.tokenize(text)`;
* `cudaAvailable` — `torch.cuda.is_available()`.

Process state (the global `model_cache` dict, plus the on-disk `./models`
directory holding each model's local copy) is threaded explicitly through a
`World` record.  `disk` is the set of model names that currently have a valid,
loadable local copy under `MODELS_DIR/<name>`; a local-only
`from_pretrained(cache_dir, local_files_only=True)` triple succeeds exactly when
the name is on `disk` (absence covers missing files, corrupt cache and I/O
errors alike), and a successful remote fetch writes the copy to `disk`, per the
engine contract stated in the specification.  Two instrumentation fields make
engine activity observable: `loadEvents` records each name freshly inserted
into the cache (in order), and `engineCalls` counts local/remote load attempts
(one for a local load, two for a failed-local-then-remote load).  Neither field
influences control flow.

Python exceptions are modelled with `Except String`; an endpoint's HTTP outcome
is an `HttpResult` (a 200 body or an `HTTPException` status/detail pair).
-/

/-- The `SUPPORTED_MODELS` dict of main.py (identical in download_models.py):
model name -> Hugging Face hub id. -/
def SUPPORTED_MODELS : List (String × String) :=
  [("bert-base-uncased", "bert-base-uncased"),
   ("bert-large-uncased", "bert-large-uncased"),
   ("roberta-base", "roberta-base"),
   ("roberta-large", "roberta-large"),
   ("albert-base-v1", "albert-base-v1"),
   ("albert-base-v2", "albert-base-v2")]

/-- `list(SUPPORTED_MODELS.keys())`. -/
def supportedModelNames : List String := SUPPORTED_MODELS.map Prod.fst

/-- `SUPPORTED_MODELS[name]`, as an optional lookup (`None` when
`name not in SUPPORTED_MODELS`). -/
def lookupModelId (name : String) : Option String :=
  (SUPPORTED_MODELS.find? (fun p => p.1 == name)).map Prod.snd

/-- Handle returned by `AutoTokenizer.from_pretrained`; `localOnly` records
whether it came from the local-only path (`local_files_only=True`) or from a
hub download. -/
structure TokenizerHandle where
  modelId : String
  localOnly : Bool
  deriving DecidableEq, Repr

/-- Handle returned by `AutoModel.from_pretrained`. -/
structure AutoModelHandle where
  modelId : String
  localOnly : Bool
  deriving DecidableEq, Repr

/-- Handle returned by `pipeline("feature-extraction", model=…, tokenizer=…,
device=…)`; `device` is `0` when CUDA is available, else `-1`. -/
structure PipelineHandle where
  modelId : String
  device : Int
  deriving DecidableEq, Repr

/-- The dict `{"tokenizer": …, "model": …, "pipeline": …}` stored as a value of
`model_cache` (main.py lines 175-179) and returned by
`download_model` (download_models.py lines 79-83). -/
structure LoadedModel where
  tokenizer : TokenizerHandle
  model : AutoModelHandle
  pipeline : PipelineHandle
  deriving DecidableEq, Repr

/-- Abstract inference-engine operations (transformers + torch). -/
structure Env where
  cudaAvailable : Bool
  remoteFetch : String → Except String Unit
  runPipeline : String → String → Except String (List (List Rat))
  tokenizeText : String → String → Except String (List String)

/-- Process-wide mutable state: the global `model_cache` dict (as an
insertion-ordered association list), the on-disk `./models` contents, and two
instrumentation fields (see the module docstring). -/
structure World where
  cache : List (String × LoadedModel)
  disk : List String
  loadEvents : List String
  engineCalls : Nat
  deriving DecidableEq, Repr

/-- A process-start state: empty cache, a given on-disk models directory. -/
def initWorld (disk : List String) : World :=
  { cache := [], disk := disk, loadEvents := [], engineCalls := 0 }

/-- `download_and_cache_model` (main.py lines 99-184).

Control flow of the source: cache hit returns immediately (line 101, before any
registry validation); an unsupported name raises
`ValueError(f"Model ... not supported")` (line 104); otherwise the outer `try`
first attempts a local-only load of tokenizer, model and pipeline from
`MODELS_DIR/<name>`, and on any exception falls back to a hub download (with
`cache_dir` set to the same path) of the same three steps; on success of either
path the full triple is inserted into `model_cache`; a failure of the remote
path is logged and re-raised by the outer `except` without inserting
anything. -/
def download_and_cache_model (env : Env) (w : World) (model_name : String) :
    Except String (LoadedModel × World) :=
  match w.cache.find? (fun p => p.1 == model_name) with
  | some hit => .ok (hit.2, w)
  | none =>
    match lookupModelId model_name with
    | none => .error ("Model " ++ model_name ++ " not supported")
    | some model_id =>
      let device : Int := if env.cudaAvailable then 0 else -1
      if w.disk.contains model_name then
        let entry : LoadedModel :=
          { tokenizer := { modelId := model_id, localOnly := true }
            model := { modelId := model_id, localOnly := true }
            pipeline := { modelId := model_id, device := device } }
        .ok (entry,
          { w with
            cache := w.cache ++ [(model_name, entry)]
            loadEvents := w.loadEvents ++ [model_name]
            engineCalls := w.engineCalls + 1 })
      else
        match env.remoteFetch model_id with
        | .ok _ =>
          let entry : LoadedModel :=
            { tokenizer := { modelId := model_id, localOnly := false }
              model := { modelId := model_id, localOnly := false }
              pipeline := { modelId := model_id, device := device } }
          .ok (entry,
            { w with
              cache := w.cache ++ [(model_name, entry)]
              disk := w.disk ++ [model_name]
              loadEvents := w.loadEvents ++ [model_name]
              engineCalls := w.engineCalls + 2 })
        | .error e => .error e

/-- `ModelRequest` (main.py lines 77-80). -/
structure ModelRequest where
  text : String
  model_name : String
  task : String := "feature-extraction"
  deriving DecidableEq, Repr

/-- The features dict built at main.py lines 242-246. -/
structure PredictFeatures where
  num_tokens : Nat
  tokens : List String
  text_length : Nat
  deriving DecidableEq, Repr

/-- `ModelResponse` (main.py lines 83-89); floats are modelled by `Rat`. -/
structure ModelResponse where
  model_name : String
  text : String
  task : String
  embeddings : Option (List (List Rat)) := none
  features : Option PredictFeatures := none
  error : Option String := none
  deriving DecidableEq, Repr

/-- Outcome of an endpoint call: a 200 body, or an `HTTPException` carrying a
status code and a detail string. -/
inductive HttpResult (α : Type) where
  | ok (value : α)
  | httpError (status : Nat) (detail : String)
  deriving DecidableEq, Repr

/-- Python's `repr` of a list of strings, as used in the f-string of the 400
detail of `/predict`. -/
def pyStrListRepr (xs : List String) : String :=
  "[" ++ String.intercalate ", " (xs.map (fun s => "\x27" ++ s ++ "\x27")) ++ "]"

/-- `POST /predict` (main.py lines 206-260).

An unsupported name raises `HTTPException(400, …)`, re-raised as-is by the
`except HTTPException` clause.  Every other exception — load failure inside
`download_and_cache_model`, pipeline failure, tokenizer failure — is caught by
the broad `except Exception` clause and turned into a 200 `ModelResponse` whose
`error` field holds `str(e)`. -/
def predict (env : Env) (w : World) (request : ModelRequest) :
    HttpResult ModelResponse × World :=
  if !(supportedModelNames.contains request.model_name) then
    (.httpError 400
      ("Model " ++ request.model_name ++ " not supported. Available models: " ++
        pyStrListRepr supportedModelNames), w)
  else
    match download_and_cache_model env w request.model_name with
    | .error e =>
      (.ok { model_name := request.model_name, text := request.text,
             task := request.task, error := some e }, w)
    | .ok (model_data, w2) =>
      if request.task == "feature-extraction" then
        match env.runPipeline model_data.pipeline.modelId request.text with
        | .ok embeddings =>
          (.ok { model_name := request.model_name, text := request.text,
                 task := request.task, embeddings := some embeddings }, w2)
        | .error e =>
          (.ok { model_name := request.model_name, text := request.text,
                 task := request.task, error := some e }, w2)
      else
        match env.tokenizeText model_data.tokenizer.modelId request.text with
        | .ok tokens =>
          (.ok { model_name := request.model_name, text := request.text,
                 task := request.task,
                 features := some { num_tokens := tokens.length,
                                    tokens := tokens.take 50,
                                    text_length := request.text.length } }, w2)
        | .error e =>
          (.ok { model_name := request.model_name, text := request.text,
                 task := request.task, error := some e }, w2)

/-- `POST /load-model/{model_name}` (main.py lines 263-277).

The handler's only `except` clause is `except Exception as e:
raise HTTPException(status_code=500, detail=str(e))`.  `fastapi.HTTPException`
is a subclass of `Exception`, and — unlike `predict` — there is no
`except HTTPException: raise` guard, so the `HTTPException(400, f"Model …
not supported")` raised inside the `try` for an unsupported name is itself
caught and re-wrapped: the endpoint answers 500 with detail
`str(HTTPException(400, d))`, which Starlette renders as `"400: " + d`. -/
def load_model (env : Env) (w : World) (model_name : String) :
    HttpResult String × World :=
  if !(supportedModelNames.contains model_name) then
    (.httpError 500 ("400: Model " ++ model_name ++ " not supported"), w)
  else
    match download_and_cache_model env w model_name with
    | .ok r => (.ok ("Model " ++ model_name ++ " loaded successfully"), r.2)
    | .error e => (.httpError 500 e, w)

/-- Body of `GET /models` (main.py lines 197-203). -/
structure ModelsResponse where
  supported_models : List String
  loaded_models : List String
  deriving DecidableEq, Repr

/-- `GET /models` (main.py lines 197-203). -/
def list_models (w : World) : ModelsResponse :=
  { supported_models := supportedModelNames
    loaded_models := w.cache.map Prod.fst }

/-- Body of `GET /health` (main.py lines 280-287). -/
structure HealthResponse where
  status : String
  models_loaded : Nat
  cuda_available : Bool
  deriving DecidableEq, Repr

/-- `GET /health` (main.py lines 280-287). -/
def health_check (env : Env) (w : World) : HealthResponse :=
  { status := "healthy"
    models_loaded := w.cache.length
    cuda_available := env.cudaAvailable }

/-- Body of `GET /` (main.py lines 187-194). -/
structure RootResponse where
  message : String
  version : String
  supported_models : List String
  deriving DecidableEq, Repr

/-- `GET /` (main.py lines 187-194). -/
def root_info : RootResponse :=
  { message := "LogPrompt - Transformer Models API"
    version := "1.0.0"
    supported_models := supportedModelNames }

/-- One incoming API operation. -/
inductive Op where
  | predictOp (request : ModelRequest)
  | loadModelOp (model_name : String)
  | listModelsOp
  | healthOp
  | rootOp
  deriving DecidableEq, Repr

/-- State effect of handling one operation (the GET endpoints are read-only). -/
def step (env : Env) (w : World) : Op → World
  | .predictOp r => (predict env w r).2
  | .loadModelOp n => (load_model env w n).2
  | .listModelsOp => w
  | .healthOp => w
  | .rootOp => w

/-- Run a sequence of operations from a given state. -/
def runTrace (env : Env) (w : World) : List Op → World
  | [] => w
  | op :: ops => runTrace env (step env w op) ops

/-- `download_model` of download_models.py (lines 40-87): a forced hub download
(`local_files_only=False`, no local-first attempt) of tokenizer, model and
pipeline for one registry entry; any exception is logged and re-raised. -/
def download_model (env : Env) (model_name model_id : String) :
    Except String LoadedModel :=
  match env.remoteFetch model_id with
  | .ok _ =>
    .ok { tokenizer := { modelId := model_id, localOnly := false }
          model := { modelId := model_id, localOnly := false }
          pipeline := { modelId := model_id,
                        device := if env.cudaAvailable then 0 else -1 } }
  | .error e => .error e

/-- The `for` loop of `download_all_models` (download_models.py lines 105-117):
each entry is tried in turn; a failing entry contributes `(name, str(e))` to
`failed_models` and the loop `continue`s to the next entry. -/
def downloadLoop (env : Env) : List (String × String) → List (String × String)
  | [] => []
  | (model_name, model_id) :: rest =>
    match download_model env model_name model_id with
    | .ok _ => downloadLoop env rest
    | .error e => (model_name, e) :: downloadLoop env rest

/-- `download_all_models` (download_models.py lines 90-129), parameterised by
the registry items in iteration order; returns the accumulated
`failed_models` list reported in the final summary. -/
def download_all_models (env : Env) (entries : List (String × String)) :
    List (String × String) :=
  downloadLoop env entries

/-- Process outcome of the downloader's `main`. -/
inductive ExitOutcome where
  | normalExit
  | exitCode (code : Nat)
  deriving DecidableEq, Repr

/-- `main` of download_models.py (lines 132-141): `sys.exit(1)` on
`KeyboardInterrupt` (modelled by the `interrupted` flag, since an asynchronous
signal is outside the embedding) or on an exception escaping
`download_all_models`; otherwise it returns normally (process exit code 0).
`download_all_models` is total — every per-model exception is caught inside
its loop — so absent an interrupt the exceptional branches are unreachable. -/
def downloader_main (env : Env) (interrupted : Bool)
    (entries : List (String × String)) :
    ExitOutcome × List (String × String) :=
  if interrupted then (.exitCode 1, [])
  else (.normalExit, download_all_models env entries)

/-- A cached entry is the full, mutually consistent triple for its name: all
three handles present and keyed by the registry id of the name. -/
def entryComplete (name : String) (entry : LoadedModel) : Bool :=
  match lookupModelId name with
  | some id =>
    entry.tokenizer.modelId == id && entry.model.modelId == id &&
      entry.pipeline.modelId == id
  | none => false

/-! ## Helper lemmas -/

/-- A cache hit found by name-equality is keyed by that very name. -/
theorem find?_key_eq {l : List (String × LoadedModel)} {name : String}
    {hit : String × LoadedModel}
    (h : l.find? (fun p => p.1 == name) = some hit) : hit.1 = name := by
  have := List.find?_some h
  exact eq_of_beq this

/-- Case analysis of a successful `download_and_cache_model` call: either a
pure cache hit (state unchanged), or a fresh load that appends exactly one
complete entry to the cache, records one load event, and touches the disk only
by possibly writing the model's local copy. -/
theorem download_ok_cases (env : Env) (w : World) (name : String)
    {entry : LoadedModel} {w' : World}
    (h : download_and_cache_model env w name = .ok (entry, w')) :
    (w' = w ∧ w.cache.find? (fun p => p.1 == name) = some (name, entry)) ∨
    (w.cache.find? (fun p => p.1 == name) = none ∧
     entryComplete name entry = true ∧
     w'.cache = w.cache ++ [(name, entry)] ∧
     w'.loadEvents = w.loadEvents ++ [name] ∧
     (w'.disk = w.disk ∨ w'.disk = w.disk ++ [name])) := by
  unfold download_and_cache_model at h
  cases hfind : w.cache.find? (fun p => p.1 == name) with
  | some hit =>
    simp only [hfind] at h
    obtain ⟨a, b⟩ := hit
    injection h with h
    injection h with h1 h2
    left
    have hk : a = name := find?_key_eq hfind
    subst hk h1 h2
    exact ⟨rfl, rfl⟩
  | none =>
    simp only [hfind] at h
    cases hid : lookupModelId name with
    | none =>
      simp only [hid] at h
      exact Except.noConfusion h
    | some model_id =>
      simp only [hid] at h
      by_cases hdisk : w.disk.contains name
      · simp only [hdisk, if_true] at h
        injection h with h
        injection h with h1 h2
        right
        subst h1 h2
        exact ⟨rfl, by simp [entryComplete, hid], rfl, rfl, Or.inl rfl⟩
      · simp only [hdisk, if_false, Bool.false_eq_true] at h
        cases hrf : env.remoteFetch model_id with
        | error e =>
          simp only [hrf] at h
          exact Except.noConfusion h
        | ok u =>
          simp only [hrf] at h
          injection h with h
          injection h with h1 h2
          right
          subst h1 h2
          exact ⟨rfl, by simp [entryComplete, hid], rfl, rfl, Or.inr rfl⟩

/-- A failing `download_and_cache_model` call never had a cache hit. -/
theorem download_error_no_hit (env : Env) (w : World) (name : String)
    {e : String}
    (h : download_and_cache_model env w name = .error e) :
    w.cache.find? (fun p => p.1 == name) = none := by
  unfold download_and_cache_model at h
  split at h
  · exact absurd h (by simp)
  · next hfind => exact hfind

/-- The handle triple built by the local-only load path for hub id
`model_id`. -/
def localEntry (env : Env) (model_id : String) : LoadedModel :=
  { tokenizer := { modelId := model_id, localOnly := true }
    model := { modelId := model_id, localOnly := true }
    pipeline := { modelId := model_id,
                  device := if env.cudaAvailable then 0 else -1 } }

/-- The handle triple built by the remote-download path for hub id
`model_id`. -/
def remoteEntry (env : Env) (model_id : String) : LoadedModel :=
  { tokenizer := { modelId := model_id, localOnly := false }
    model := { modelId := model_id, localOnly := false }
    pipeline := { modelId := model_id,
                  device := if env.cudaAvailable then 0 else -1 } }

/-- The local-only branch: on a cache miss for a registry name whose local
copy is on disk, the entry is built by the local-only load path — note the
conclusion does not depend on `env.remoteFetch`, and the disk is untouched —
and inserted, at the cost of one engine load. -/
theorem download_local_case (env : Env) (w : World) (model_name model_id : String)
    (hmiss : w.cache.find? (fun p => p.1 == model_name) = none)
    (hid : lookupModelId model_name = some model_id)
    (hdisk : w.disk.contains model_name = true) :
    download_and_cache_model env w model_name =
      .ok (localEntry env model_id,
           { w with
             cache := w.cache ++ [(model_name, localEntry env model_id)]
             loadEvents := w.loadEvents ++ [model_name]
             engineCalls := w.engineCalls + 1 }) := by
  unfold download_and_cache_model localEntry
  simp only [hmiss, hid, hdisk, if_true]

/-- The remote-fallback branch: on a cache miss for a registry name with no
valid local copy and a succeeding hub download, the entry is built by the
remote path, inserted, and the local copy is written to disk; the failed local
attempt plus the remote download cost two engine loads. -/
theorem download_remote_case (env : Env) (w : World) (model_name model_id : String)
    (hmiss : w.cache.find? (fun p => p.1 == model_name) = none)
    (hid : lookupModelId model_name = some model_id)
    (hdisk : w.disk.contains model_name = false)
    (hrf : env.remoteFetch model_id = .ok ()) :
    download_and_cache_model env w model_name =
      .ok (remoteEntry env model_id,
           { w with
             cache := w.cache ++ [(model_name, remoteEntry env model_id)]
             disk := w.disk ++ [model_name]
             loadEvents := w.loadEvents ++ [model_name]
             engineCalls := w.engineCalls + 2 }) := by
  unfold download_and_cache_model remoteEntry
  simp only [hmiss, hid, hdisk, Bool.false_eq_true, if_false, hrf]

/-- Memoization: after a successful `download_and_cache_model`, the name is in
the cache, and calling again returns the very same entry with the state
completely unchanged (in particular no further engine load: `engineCalls`
stays put). -/
theorem download_memo (env : Env) (w : World) (name : String)
    {entry : LoadedModel} {w' : World}
    (h : download_and_cache_model env w name = .ok (entry, w')) :
    w'.cache.find? (fun p => p.1 == name) = some (name, entry) ∧
    download_and_cache_model env w' name = .ok (entry, w') := by
  have hfind : w'.cache.find? (fun p => p.1 == name) = some (name, entry) := by
    rcases download_ok_cases env w name h with ⟨rfl, hf⟩ | ⟨hf, _, hc, _, _⟩
    · exact hf
    · rw [hc, List.find?_append, hf]
      simp
  refine ⟨hfind, ?_⟩
  unfold download_and_cache_model
  simp only [hfind]

/-- State effect of `POST /predict`: either the state is unchanged, or it is
exactly the state produced by the inner `download_and_cache_model` call. -/
theorem predict_snd (env : Env) (w : World) (request : ModelRequest) :
    (predict env w request).2 = w ∨
    ∃ entry, download_and_cache_model env w request.model_name =
      .ok (entry, (predict env w request).2) := by
  by_cases hs : request.model_name ∈ supportedModelNames
  · cases hdl : download_and_cache_model env w request.model_name with
    | error e =>
      left
      unfold predict
      simp [hs, hdl]
    | ok r =>
      obtain ⟨entry, w2⟩ := r
      right
      refine ⟨entry, ?_⟩
      have hc : supportedModelNames.contains request.model_name = true := by
        simpa using hs
      have h2 : (predict env w request).2 = w2 := by
        unfold predict
        rw [hc]
        simp only [Bool.not_true, Bool.false_eq_true, ite_false, hdl]
        split
        · cases hp : env.runPipeline entry.pipeline.modelId request.text <;>
            simp [hp]
        · cases ht : env.tokenizeText entry.tokenizer.modelId request.text <;>
            simp [ht]
      rw [h2]
  · left
    unfold predict
    simp [hs]

/-- State effect of `POST /load-model/{name}`: either unchanged, or exactly the
state produced by the inner `download_and_cache_model` call. -/
theorem load_model_snd (env : Env) (w : World) (model_name : String) :
    (load_model env w model_name).2 = w ∨
    ∃ entry, download_and_cache_model env w model_name =
      .ok (entry, (load_model env w model_name).2) := by
  by_cases hs : model_name ∈ supportedModelNames
  · cases hdl : download_and_cache_model env w model_name with
    | error e =>
      left
      unfold load_model
      simp [hs, hdl]
    | ok r =>
      obtain ⟨entry, w2⟩ := r
      right
      refine ⟨entry, ?_⟩
      have hc : supportedModelNames.contains model_name = true := by
        simpa using hs
      have h2 : (load_model env w model_name).2 = w2 := by
        unfold load_model
        rw [hc]
        simp [hdl]
      rw [h2]
  · left
    unfold load_model
    simp [hs]

/-- State effect of any single operation. -/
theorem step_cases (env : Env) (w : World) (op : Op) :
    step env w op = w ∨
    ∃ name entry, download_and_cache_model env w name = .ok (entry, step env w op) := by
  cases op with
  | predictOp r =>
    rcases predict_snd env w r with h | ⟨entry, h⟩
    · exact Or.inl h
    · exact Or.inr ⟨r.model_name, entry, h⟩
  | loadModelOp n =>
    rcases load_model_snd env w n with h | ⟨entry, h⟩
    · exact Or.inl h
    · exact Or.inr ⟨n, entry, h⟩
  | listModelsOp => exact Or.inl rfl
  | healthOp => exact Or.inl rfl
  | rootOp => exact Or.inl rfl

/-- The reachable-state invariant: cache keys coincide (in order) with the
recorded fresh-load events, no name is ever loaded twice, and every cached
entry is the complete, consistent handle triple for its (registry) name. -/
def WorldInv (w : World) : Prop :=
  w.cache.map Prod.fst = w.loadEvents ∧
  w.loadEvents.Nodup ∧
  w.cache.all (fun p => entryComplete p.1 p.2) = true

theorem worldInv_init (disk : List String) : WorldInv (initWorld disk) :=
  ⟨rfl, List.nodup_nil, rfl⟩

theorem download_preserves_inv (env : Env) (w : World) (name : String)
    {entry : LoadedModel} {w' : World} (hw : WorldInv w)
    (h : download_and_cache_model env w name = .ok (entry, w')) : WorldInv w' := by
  rcases download_ok_cases env w name h with ⟨rfl, _⟩ | ⟨hmiss, hce, hc, hle, _⟩
  · exact hw
  · obtain ⟨h1, h2, h3⟩ := hw
    have hnotin : name ∉ w.loadEvents := by
      rw [← h1]
      intro hmem
      rcases List.mem_map.mp hmem with ⟨p, hp, hpe⟩
      exact List.find?_eq_none.mp hmiss p hp (by simp [hpe])
    refine ⟨?_, ?_, ?_⟩
    · rw [hc, hle, List.map_append, h1]
      rfl
    · rw [hle, ← List.concat_eq_append]
      exact List.Nodup.concat hnotin h2
    · rw [hc]
      simp [h3, hce]

theorem step_preserves_inv (env : Env) (w : World) (op : Op)
    (hw : WorldInv w) : WorldInv (step env w op) := by
  rcases step_cases env w op with h | ⟨name, entry, h⟩
  · rw [h]
    exact hw
  · exact download_preserves_inv env w name hw h

theorem runTrace_inv (env : Env) :
    ∀ (ops : List Op) (w : World), WorldInv w → WorldInv (runTrace env w ops)
  | [], _, hw => hw
  | op :: ops, w, hw => runTrace_inv env ops _ (step_preserves_inv env w op hw)

/-- Cache entries are never removed by any operation. -/
theorem step_cache_mono (env : Env) (w : World) (op : Op) :
    ∃ t, (step env w op).cache = w.cache ++ t := by
  rcases step_cases env w op with h | ⟨name, entry, h⟩
  · exact ⟨[], by rw [h, List.append_nil]⟩
  · rcases download_ok_cases env w name h with ⟨heq, _⟩ | ⟨_, _, hc, _, _⟩
    · exact ⟨[], by rw [heq, List.append_nil]⟩
    · exact ⟨[(name, entry)], hc⟩

/-- A predict call whose model is already cached leaves the state unchanged. -/
theorem predict_cached_world (env : Env) (w : World) (request : ModelRequest)
    (h : (w.cache.find? (fun p => p.1 == request.model_name)).isSome = true) :
    (predict env w request).2 = w := by
  rcases predict_snd env w request with h2 | ⟨entry, h2⟩
  · exact h2
  · obtain ⟨hit, hfind⟩ := Option.isSome_iff_exists.mp h
    have hdl : download_and_cache_model env w request.model_name = .ok (hit.2, w) := by
      unfold download_and_cache_model
      simp only [hfind]
    have heq := h2.symm.trans hdl
    injection heq with heq
    injection heq with h4 h3

/-- A complete cached entry is registered: its name resolves in the
registry. -/
theorem entryComplete_lookup {name : String} {entry : LoadedModel}
    (h : entryComplete name entry = true) : (lookupModelId name).isSome = true := by
  unfold entryComplete at h
  cases hl : lookupModelId name with
  | none =>
    rw [hl] at h
    exact absurd h (by simp)
  | some mid => rfl

/-- A name that resolves in the registry is among the supported model
names. -/
theorem lookup_some_contains {name : String}
    (h : (lookupModelId name).isSome = true) :
    supportedModelNames.contains name = true := by
  unfold lookupModelId at h
  cases hf : SUPPORTED_MODELS.find? (fun p => p.1 == name) with
  | none =>
    rw [hf] at h
    simp at h
  | some q =>
    have hmem := List.mem_of_find?_eq_some hf
    have hbeq := List.find?_some hf
    have hpeq : q.1 = name := eq_of_beq hbeq
    have hn : name ∈ supportedModelNames := by
      rw [← hpeq]
      exact List.mem_map_of_mem Prod.fst hmem
    simpa using hn

/-- A concrete engine used to instantiate the theorems: no CUDA, every hub
download fails. -/
def envFail : Env :=
  { cudaAvailable := false
    remoteFetch := fun _ => .error "network unreachable"
    runPipeline := fun _ _ => .error "pipeline failure"
    tokenizeText := fun _ _ => .error "tokenizer failure" }

/-- A concrete engine used to instantiate the theorems: no CUDA, hub downloads
succeed, the pipeline returns two 2-dimensional token embeddings, the
tokenizer returns two tokens. -/
def envOk : Env :=
  { cudaAvailable := false
    remoteFetch := fun _ => .ok ()
    runPipeline := fun _ _ => .ok [[1, 2], [3, 4]]
    tokenizeText := fun _ _ => .ok ["hello", "world"] }

/-- A concrete engine used to instantiate the theorems: no CUDA, hub downloads
succeed, but both the pipeline call and the tokenizer call raise. -/
def envInferFail : Env :=
  { cudaAvailable := false
    remoteFetch := fun _ => .ok ()
    runPipeline := fun _ _ => .error "pipeline failure"
    tokenizeText := fun _ _ => .error "tokenizer failure" }

/-- The state after loading bert-base-uncased from a local copy into a fresh
process. -/
def bertWorld1 : World :=
  { cache := [("bert-base-uncased", localEntry envOk "bert-base-uncased")]
    disk := ["bert-base-uncased"]
    loadEvents := ["bert-base-uncased"]
    engineCalls := 1 }

/-! ## Claim theorems -/

/-- C2: for every registry model name not yet cached, `get_or_load` first
attempts a local-only load from the per-model local storage path: when a valid
local copy exists the call succeeds via the local-only path (the conclusion
does not depend on `env.remoteFetch`, and the disk is untouched).  When the
local load fails for any reason (no valid local copy on disk), it falls back
to a remote load keyed by the Registry's remote identifier, writing the local
copy into the same storage path as a side effect, so that a subsequent
local-only load of the same name — here from a fresh process with an empty
cache but the same disk — succeeds via the local-only path. -/
theorem c2_local_first_then_remote_fallback :
    (∀ (env : Env) (w : World) (model_name model_id : String),
      w.cache.find? (fun p => p.1 == model_name) = none →
      lookupModelId model_name = some model_id →
      w.disk.contains model_name = true →
      download_and_cache_model env w model_name =
        .ok (localEntry env model_id,
             { w with
               cache := w.cache ++ [(model_name, localEntry env model_id)]
               loadEvents := w.loadEvents ++ [model_name]
               engineCalls := w.engineCalls + 1 })) ∧
    (∀ (env : Env) (w : World) (model_name model_id : String),
      w.cache.find? (fun p => p.1 == model_name) = none →
      lookupModelId model_name = some model_id →
      w.disk.contains model_name = false →
      env.remoteFetch model_id = .ok () →
      download_and_cache_model env w model_name =
        .ok (remoteEntry env model_id,
             { w with
               cache := w.cache ++ [(model_name, remoteEntry env model_id)]
               disk := w.disk ++ [model_name]
               loadEvents := w.loadEvents ++ [model_name]
               engineCalls := w.engineCalls + 2 }) ∧
      download_and_cache_model env (initWorld (w.disk ++ [model_name])) model_name =
        .ok (localEntry env model_id,
             { cache := [(model_name, localEntry env model_id)]
               disk := w.disk ++ [model_name]
               loadEvents := [model_name]
               engineCalls := 1 })) := by
  constructor
  · intro env w model_name model_id hmiss hid hdisk
    exact download_local_case env w model_name model_id hmiss hid hdisk
  · intro env w model_name model_id hmiss hid hdisk hrf
    constructor
    · exact download_remote_case env w model_name model_id hmiss hid hdisk hrf
    · have hdisk2 : (w.disk ++ [model_name]).contains model_name = true := by
        simp
      exact download_local_case env (initWorld (w.disk ++ [model_name]))
        model_name model_id rfl hid hdisk2

/-- C3: for every valid model name, a successful `get_or_load`
(`download_and_cache_model`) leaves the entry in the cache under that name,
and a subsequent call with the same name returns that very cached entry with
the state — including the engine-call counter — completely unchanged: no new
local or remote load is performed. -/
theorem c3_get_or_load_memoizes (env : Env) (w : World) (name : String)
    (entry : LoadedModel) (w' : World)
    (h : download_and_cache_model env w name = .ok (entry, w')) :
    w'.cache.find? (fun p => p.1 == name) = some (name, entry) ∧
    download_and_cache_model env w' name = .ok (entry, w') :=
  download_memo env w name h

/-- C4: load atomicity.  Whenever loading fails, the error propagates and the
name is never inserted: both endpoints leave the state untouched.  Moreover in
every state reachable from a process start, each cached name holds the
complete, mutually consistent triple of tokenizer, model and pipeline handles
— partial loads are never observable. -/
theorem c4_load_atomicity :
    (∀ (env : Env) (w : World) (name : String) (e : String),
      download_and_cache_model env w name = .error e →
      (load_model env w name).2 = w ∧
      ∀ request : ModelRequest, request.model_name = name →
        (predict env w request).2 = w) ∧
    (∀ (env : Env) (disk0 : List String) (ops : List Op),
      ((runTrace env (initWorld disk0) ops).cache.all
        (fun p => entryComplete p.1 p.2)) = true) := by
  constructor
  · intro env w name e hdl
    constructor
    · rcases load_model_snd env w name with h | ⟨entry, h⟩
      · exact h
      · rw [hdl] at h
        exact Except.noConfusion h
    · intro request hreq
      rcases predict_snd env w request with h | ⟨entry, h⟩
      · exact h
      · rw [hreq, hdl] at h
        exact Except.noConfusion h
  · intro env disk0 ops
    exact (runTrace_inv env ops (initWorld disk0) (worldInv_init disk0)).2.2

/-- Number of populated optional fields of a `ModelResponse`. -/
def respFieldsPopulated (r : ModelResponse) : Nat :=
  (if r.embeddings.isSome then 1 else 0) + (if r.features.isSome then 1 else 0) +
    (if r.error.isSome then 1 else 0)

/-- The `/predict` response contract: an HTTP error only for validation (status
400), and in every 200 body exactly one of embeddings, features, error is
populated. -/
def predictContractOk : HttpResult ModelResponse → Bool
  | .ok r => respFieldsPopulated r == 1
  | .httpError status _ => status == 400

/-- C5: on `POST /predict` every non-validation exception — load failure as
well as inference failure, whether the pipeline call or the tokenizer call
raised — is caught and returned as HTTP 200 with the `error` field holding the
exception text; every `PredictResponse` populates exactly one of embeddings,
features, error, so `error` is never set alongside embeddings or features, and
the only non-200 outcome is the validation 400. -/
theorem c5_predict_error_contract :
    (∀ (env : Env) (w : World) (request : ModelRequest),
      predictContractOk (predict env w request).1 = true) ∧
    (∀ (env : Env) (w : World) (request : ModelRequest) (e : String),
      request.model_name ∈ supportedModelNames →
      download_and_cache_model env w request.model_name = .error e →
      (predict env w request).1 =
        .ok { model_name := request.model_name, text := request.text,
              task := request.task, error := some e }) ∧
    (∀ (env : Env) (w : World) (request : ModelRequest)
      (entry : LoadedModel) (w2 : World) (e : String),
      request.model_name ∈ supportedModelNames →
      download_and_cache_model env w request.model_name = .ok (entry, w2) →
      request.task = "feature-extraction" →
      env.runPipeline entry.pipeline.modelId request.text = .error e →
      (predict env w request).1 =
        .ok { model_name := request.model_name, text := request.text,
              task := request.task, error := some e }) ∧
    (∀ (env : Env) (w : World) (request : ModelRequest)
      (entry : LoadedModel) (w2 : World) (e : String),
      request.model_name ∈ supportedModelNames →
      download_and_cache_model env w request.model_name = .ok (entry, w2) →
      (request.task == "feature-extraction") = false →
      env.tokenizeText entry.tokenizer.modelId request.text = .error e →
      (predict env w request).1 =
        .ok { model_name := request.model_name, text := request.text,
              task := request.task, error := some e }) := by
  refine ⟨?_, ?_, ?_, ?_⟩
  · intro env w request
    by_cases hs : request.model_name ∈ supportedModelNames
    · cases hdl : download_and_cache_model env w request.model_name with
      | error e =>
        unfold predict
        simp [hs, hdl, predictContractOk, respFieldsPopulated]
      | ok r =>
        obtain ⟨entry, w2⟩ := r
        have hc : supportedModelNames.contains request.model_name = true := by
          simpa using hs
        unfold predict
        rw [hc]
        simp only [Bool.not_true, Bool.false_eq_true, ite_false, hdl]
        split
        · cases hp : env.runPipeline entry.pipeline.modelId request.text <;>
            simp [hp, predictContractOk, respFieldsPopulated]
        · cases ht : env.tokenizeText entry.tokenizer.modelId request.text <;>
            simp [ht, predictContractOk, respFieldsPopulated]
    · unfold predict
      simp [hs, predictContractOk]
  · intro env w request e hs hdl
    have hc : supportedModelNames.contains request.model_name = true := by
      simpa using hs
    unfold predict
    rw [hc]
    simp [hdl]
  · intro env w request entry w2 e hs hdl htask hp
    have hc : supportedModelNames.contains request.model_name = true := by
      simpa using hs
    unfold predict
    rw [hc]
    simp only [Bool.not_true, Bool.false_eq_true, ite_false, hdl]
    rw [htask]
    simp [hp]
  · intro env w request entry w2 e hs hdl htask ht
    have hc : supportedModelNames.contains request.model_name = true := by
      simpa using hs
    unfold predict
    rw [hc]
    simp only [Bool.not_true, Bool.false_eq_true, ite_false, hdl]
    rw [htask]
    simp [ht]

/-- C6: a predict request for a valid model with task `"feature-extraction"`
whose engine call succeeds answers HTTP 200 with `embeddings` set to exactly
the engine's output and `features` and `error` unset; under the engine
contract — the pipeline returns one vector per input token, all of one
dimension, and at least one token is produced — the returned `embeddings` is a
non-empty sequence of equal-length numeric vectors, one per input token. -/
theorem c6_feature_extraction_embeddings (env : Env) (w : World)
    (request : ModelRequest) (entry : LoadedModel) (w2 : World)
    (E : List (List Rat)) (tokens : List String) (dim : Nat)
    (hs : request.model_name ∈ supportedModelNames)
    (htask : request.task = "feature-extraction")
    (hdl : download_and_cache_model env w request.model_name = .ok (entry, w2))
    (hp : env.runPipeline entry.pipeline.modelId request.text = .ok E)
    (htoks : env.tokenizeText entry.tokenizer.modelId request.text = .ok tokens)
    (hne : E ≠ [])
    (hrows : E.all (fun row => row.length == dim) = true)
    (hlen : E.length = tokens.length) :
    (predict env w request).1 =
      .ok { model_name := request.model_name, text := request.text,
            task := request.task, embeddings := some E } ∧
    E ≠ [] ∧ E.all (fun row => row.length == dim) = true ∧
    E.length = tokens.length := by
  refine ⟨?_, hne, hrows, hlen⟩
  have hc : supportedModelNames.contains request.model_name = true := by
    simpa using hs
  unfold predict
  rw [hc]
  simp only [Bool.not_true, Bool.false_eq_true, ite_false, hdl]
  rw [htask]
  simp [hp]

/-- C7: a predict request for a valid model with any task other than
`"feature-extraction"` answers HTTP 200 with a `features` mapping whose
`num_tokens` is the tokenizer's token count for the input text, whose `tokens`
is that token list truncated to at most 50 entries, and whose `text_length`
equals the length of the request text. -/
theorem c7_other_task_features (env : Env) (w : World)
    (request : ModelRequest) (entry : LoadedModel) (w2 : World)
    (tokens : List String)
    (hs : request.model_name ∈ supportedModelNames)
    (htask : (request.task == "feature-extraction") = false)
    (hdl : download_and_cache_model env w request.model_name = .ok (entry, w2))
    (ht : env.tokenizeText entry.tokenizer.modelId request.text = .ok tokens) :
    (predict env w request).1 =
      .ok { model_name := request.model_name, text := request.text,
            task := request.task,
            features := some { num_tokens := tokens.length,
                               tokens := tokens.take 50,
                               text_length := request.text.length } } ∧
    (tokens.take 50).length ≤ 50 := by
  constructor
  · have hc : supportedModelNames.contains request.model_name = true := by
      simpa using hs
    unfold predict
    rw [hc]
    simp only [Bool.not_true, Bool.false_eq_true, ite_false, hdl]
    rw [htask]
    simp [ht]
  · simpa using List.length_take_le 50 tokens

/-- C8: `GET /health` always reports status `"healthy"` and counts the cached
models; from any process start, that count equals the number of names freshly
and successfully loaded so far (the recorded load events, which are pairwise
distinct, so this is the number of distinct names ever successfully loaded);
a predict call against an already-cached name leaves the state unchanged, and
no operation ever removes a cache entry. -/
theorem c8_health_models_loaded :
    (∀ (env : Env) (w : World),
      (health_check env w).status = "healthy" ∧
      (health_check env w).models_loaded = w.cache.length) ∧
    (∀ (env : Env) (disk0 : List String) (ops : List Op),
      (health_check env (runTrace env (initWorld disk0) ops)).models_loaded =
        (runTrace env (initWorld disk0) ops).loadEvents.length ∧
      (runTrace env (initWorld disk0) ops).loadEvents.Nodup) ∧
    (∀ (env : Env) (w : World) (request : ModelRequest),
      (w.cache.find? (fun p => p.1 == request.model_name)).isSome = true →
      (predict env w request).2 = w) ∧
    (∀ (env : Env) (w : World) (op : Op),
      ∃ t, (step env w op).cache = w.cache ++ t) := by
  refine ⟨?_, ?_, ?_, ?_⟩
  · intro env w
    exact ⟨rfl, rfl⟩
  · intro env disk0 ops
    obtain ⟨h1, h2, _⟩ := runTrace_inv env ops (initWorld disk0) (worldInv_init disk0)
    constructor
    · show (runTrace env (initWorld disk0) ops).cache.length = _
      rw [← h1, List.length_map]
    · exact h2
  · intro env w request h
    exact predict_cached_world env w request h
  · intro env w op
    exact step_cache_mono env w op

/-- C9: the Bulk Downloader isolates failures per model.  For every iteration
order of the registry, the failing entries — and only they — are accumulated
in order as (name, error) pairs and reported in the final summary, while every
later entry is still processed; absent a user interrupt `main` completes
normally (process exit code 0) regardless of per-model failures, and exits
with code 1 on interrupt. -/
theorem c9_downloader_isolates_failures (env : Env)
    (entries : List (String × String)) :
    download_all_models env entries =
      entries.filterMap (fun p =>
        match env.remoteFetch p.2 with
        | .ok _ => none
        | .error e => some (p.1, e)) ∧
    downloader_main env false entries =
      (.normalExit, download_all_models env entries) ∧
    downloader_main env true entries = (.exitCode 1, []) := by
  refine ⟨?_, rfl, rfl⟩
  induction entries with
  | nil => rfl
  | cons p rest ih =>
    obtain ⟨name, mid⟩ := p
    unfold download_all_models at ih ⊢
    unfold downloadLoop download_model
    cases hrf : env.remoteFetch mid <;>
      simp [hrf, List.filterMap_cons, ih]

/-- C10: every key of the model cache is a key of the Registry — in every
state reachable from a process start, the `loaded_models` list of
`GET /models` is a subset of its `supported_models` list, and every endpoint
operation preserves this. -/
theorem c10_loaded_subset_supported (env : Env) (disk0 : List String)
    (ops : List Op) :
    ((list_models (runTrace env (initWorld disk0) ops)).loaded_models.all
      (fun n =>
        (list_models (runTrace env (initWorld disk0) ops)).supported_models.contains n))
      = true := by
  obtain ⟨_, _, h3⟩ := runTrace_inv env ops (initWorld disk0) (worldInv_init disk0)
  rw [List.all_eq_true] at h3 ⊢
  intro n hn
  rcases List.mem_map.mp hn with ⟨q, hq, hqe⟩
  have hcomp := h3 q hq
  have hsome := entryComplete_lookup hcomp
  rw [← hqe]
  exact lookup_some_contains hsome

/-- C1: an unsupported model name makes `download_and_cache_model` raise the
unsupported-model `ValueError` with the cache untouched, and `POST /predict`
answer HTTP 400 with the state unchanged — but `POST /load-model/{name}`
answers HTTP 500, not the documented 400: its catch-all `except Exception`
clause also catches the `HTTPException(400, …)` raised in the `try` block
(fastapi's `HTTPException` subclasses `Exception`, and unlike `predict` there
is no `except HTTPException: raise` guard) and re-wraps it as
`HTTPException(500, str(e))` with detail `"400: Model invalid-model not
supported"`. -/
theorem c1_unsupported_load_model_gives_500_not_400 :
    download_and_cache_model envFail (initWorld []) "invalid-model" =
      .error "Model invalid-model not supported" ∧
    predict envFail (initWorld [])
        { text := "Hello world", model_name := "invalid-model" } =
      (.httpError 400
        ("Model invalid-model not supported. Available models: " ++
          pyStrListRepr supportedModelNames), initWorld []) ∧
    load_model envFail (initWorld []) "invalid-model" =
      (.httpError 500 "400: Model invalid-model not supported", initWorld []) ∧
    ¬ (∃ detail,
        load_model envFail (initWorld []) "invalid-model" =
          (.httpError 400 detail, initWorld [])) := by
  refine ⟨by rfl, by rfl, by rfl, ?_⟩
  rintro ⟨detail, h⟩
  rw [show load_model envFail (initWorld []) "invalid-model" =
      (.httpError 500 "400: Model invalid-model not supported", initWorld [])
    from by rfl] at h
  injection h with h1 h2
  injection h1 with h3 h4
  exact absurd h3 (by decide)

/-! ## Concrete instantiations -/

/-- C2 instantiated: a local-copy load of bert-base-uncased, a remote fallback
load of roberta-base writing the local copy, and the subsequent local-only
load of roberta-base succeeding. -/
theorem c2_local_first_then_remote_fallback_witness :
    download_and_cache_model envOk (initWorld ["bert-base-uncased"])
        "bert-base-uncased" =
      .ok (localEntry envOk "bert-base-uncased",
           { cache := [("bert-base-uncased", localEntry envOk "bert-base-uncased")]
             disk := ["bert-base-uncased"]
             loadEvents := ["bert-base-uncased"]
             engineCalls := 1 }) ∧
    download_and_cache_model envOk (initWorld []) "roberta-base" =
      .ok (remoteEntry envOk "roberta-base",
           { cache := [("roberta-base", remoteEntry envOk "roberta-base")]
             disk := ["roberta-base"]
             loadEvents := ["roberta-base"]
             engineCalls := 2 }) ∧
    download_and_cache_model envOk (initWorld ["roberta-base"]) "roberta-base" =
      .ok (localEntry envOk "roberta-base",
           { cache := [("roberta-base", localEntry envOk "roberta-base")]
             disk := ["roberta-base"]
             loadEvents := ["roberta-base"]
             engineCalls := 1 }) := by
  refine ⟨?_, ?_, ?_⟩
  · exact c2_local_first_then_remote_fallback.1 envOk
      (initWorld ["bert-base-uncased"]) "bert-base-uncased" "bert-base-uncased"
      rfl rfl rfl
  · exact (c2_local_first_then_remote_fallback.2 envOk (initWorld [])
      "roberta-base" "roberta-base" rfl rfl rfl rfl).1
  · exact (c2_local_first_then_remote_fallback.2 envOk (initWorld [])
      "roberta-base" "roberta-base" rfl rfl rfl rfl).2

/-- C3 instantiated: after loading bert-base-uncased once, the entry is cached
and a second call returns it with the state unchanged. -/
theorem c3_get_or_load_memoizes_witness :
    bertWorld1.cache.find? (fun p => p.1 == "bert-base-uncased") =
      some ("bert-base-uncased", localEntry envOk "bert-base-uncased") ∧
    download_and_cache_model envOk bertWorld1 "bert-base-uncased" =
      .ok (localEntry envOk "bert-base-uncased", bertWorld1) := by
  have h : download_and_cache_model envOk (initWorld ["bert-base-uncased"])
      "bert-base-uncased" =
      .ok (localEntry envOk "bert-base-uncased", bertWorld1) := by rfl
  exact c3_get_or_load_memoizes envOk (initWorld ["bert-base-uncased"])
    "bert-base-uncased" (localEntry envOk "bert-base-uncased") bertWorld1 h

/-- C4 instantiated: when both load tiers fail for roberta-base, both
endpoints leave the fresh state untouched. -/
theorem c4_load_atomicity_witness :
    (load_model envFail (initWorld []) "roberta-base").2 = initWorld [] ∧
    (predict envFail (initWorld [])
      { text := "hi", model_name := "roberta-base" }).2 = initWorld [] := by
  have h : download_and_cache_model envFail (initWorld []) "roberta-base" =
      .error "network unreachable" := by rfl
  have h2 := c4_load_atomicity.1 envFail (initWorld []) "roberta-base"
    "network unreachable" h
  exact ⟨h2.1, h2.2 { text := "hi", model_name := "roberta-base" } rfl⟩

/-- C5 instantiated: a successful request satisfies the one-populated-field
contract; a load failure, a pipeline failure and a tokenizer failure are each
answered as a 200 body with `error` set. -/
theorem c5_predict_error_contract_witness :
    predictContractOk (predict envOk (initWorld [])
      { text := "Hello world", model_name := "bert-base-uncased" }).1 = true ∧
    (predict envFail (initWorld [])
      { text := "hi", model_name := "roberta-base" }).1 =
      .ok { model_name := "roberta-base", text := "hi",
            task := "feature-extraction", error := some "network unreachable" } ∧
    (predict envInferFail (initWorld ["bert-base-uncased"])
      { text := "Hello world", model_name := "bert-base-uncased" }).1 =
      .ok { model_name := "bert-base-uncased", text := "Hello world",
            task := "feature-extraction", error := some "pipeline failure" } ∧
    (predict envInferFail (initWorld ["bert-base-uncased"])
      { text := "Hello world", model_name := "bert-base-uncased",
        task := "tokenize" }).1 =
      .ok { model_name := "bert-base-uncased", text := "Hello world",
            task := "tokenize", error := some "tokenizer failure" } := by
  refine ⟨?_, ?_, ?_, ?_⟩
  · exact c5_predict_error_contract.1 envOk (initWorld [])
      { text := "Hello world", model_name := "bert-base-uncased" }
  · exact c5_predict_error_contract.2.1 envFail (initWorld [])
      { text := "hi", model_name := "roberta-base" } "network unreachable"
      (by decide) (by rfl)
  · exact c5_predict_error_contract.2.2.1 envInferFail
      (initWorld ["bert-base-uncased"])
      { text := "Hello world", model_name := "bert-base-uncased" }
      (localEntry envInferFail "bert-base-uncased")
      { cache := [("bert-base-uncased", localEntry envInferFail "bert-base-uncased")]
        disk := ["bert-base-uncased"]
        loadEvents := ["bert-base-uncased"]
        engineCalls := 1 }
      "pipeline failure" (by decide) (by rfl) rfl rfl
  · exact c5_predict_error_contract.2.2.2 envInferFail
      (initWorld ["bert-base-uncased"])
      { text := "Hello world", model_name := "bert-base-uncased",
        task := "tokenize" }
      (localEntry envInferFail "bert-base-uncased")
      { cache := [("bert-base-uncased", localEntry envInferFail "bert-base-uncased")]
        disk := ["bert-base-uncased"]
        loadEvents := ["bert-base-uncased"]
        engineCalls := 1 }
      "tokenizer failure" (by decide) (by rfl) rfl rfl

/-- C6 instantiated: a feature-extraction request on a locally available
bert-base-uncased returns exactly the engine's two 2-dimensional token
embeddings with no error. -/
theorem c6_feature_extraction_embeddings_witness :
    (predict envOk (initWorld ["bert-base-uncased"])
      { text := "Hello world", model_name := "bert-base-uncased" }).1 =
      .ok { model_name := "bert-base-uncased", text := "Hello world",
            task := "feature-extraction",
            embeddings := some [[1, 2], [3, 4]] } ∧
    ([[1, 2], [3, 4]] : List (List Rat)) ≠ [] ∧
    ([[1, 2], [3, 4]] : List (List Rat)).all (fun row => row.length == 2) = true ∧
    ([[1, 2], [3, 4]] : List (List Rat)).length =
      (["hello", "world"] : List String).length := by
  exact c6_feature_extraction_embeddings envOk (initWorld ["bert-base-uncased"])
    { text := "Hello world", model_name := "bert-base-uncased" }
    (localEntry envOk "bert-base-uncased") bertWorld1
    [[1, 2], [3, 4]] ["hello", "world"] 2
    (by decide) rfl (by rfl) rfl rfl (by decide) (by decide) rfl

/-- C7 instantiated: a request with task `"tokenize"` returns the token count,
the (short, hence untruncated) token list and the text length. -/
theorem c7_other_task_features_witness :
    (predict envOk (initWorld ["bert-base-uncased"])
      { text := "Hello world", model_name := "bert-base-uncased",
        task := "tokenize" }).1 =
      .ok { model_name := "bert-base-uncased", text := "Hello world",
            task := "tokenize",
            features := some { num_tokens := 2,
                               tokens := ["hello", "world"],
                               text_length := 11 } } ∧
    ((["hello", "world"] : List String).take 50).length ≤ 50 := by
  exact c7_other_task_features envOk (initWorld ["bert-base-uncased"])
    { text := "Hello world", model_name := "bert-base-uncased",
      task := "tokenize" }
    (localEntry envOk "bert-base-uncased") bertWorld1 ["hello", "world"]
    (by decide) (by rfl) (by rfl) rfl

/-- C8 instantiated: the health body after one load, and a repeat predict call
against the already-cached name leaving the state unchanged. -/
theorem c8_health_models_loaded_witness :
    (health_check envOk bertWorld1).status = "healthy" ∧
    (health_check envOk bertWorld1).models_loaded = bertWorld1.cache.length ∧
    (predict envOk bertWorld1
      { text := "again", model_name := "bert-base-uncased" }).2 = bertWorld1 := by
  refine ⟨(c8_health_models_loaded.1 envOk bertWorld1).1,
          (c8_health_models_loaded.1 envOk bertWorld1).2, ?_⟩
  exact c8_health_models_loaded.2.2.1 envOk bertWorld1
    { text := "again", model_name := "bert-base-uncased" } (by rfl)
